import Mathlib

/-!
Verification of the Improv-It Ensemble Prediction & Confidence Engine.

Shallow embedding of `src/ml/bento_service.py` (class `PredictionService`
and the BentoML wrapper) and of the prediction router
`src/backend/app/routers/predictions.py`.

Numeric values are modelled over `ℚ` (exact rational arithmetic stands in
for Python floats); the one genuinely irrational operation, `np.std`
(a square root), is modelled over `ℝ` with `Real.sqrt`.  Opaque model and
scaler artifacts are modelled as functions returning `Except String _`:
an `Except.error` models a raised Python exception, mirroring which calls
the source wraps in `try`/`except` and which it does not.
-/

namespace ImprovIt

/-- An opaque loaded model artifact: `model.predict(features)[0]`.
A raised exception is `Except.error`. -/
def Model : Type := List ℚ → Except String ℚ

/-- An opaque loaded scaler artifact: `scaler.transform(features)`.
A raised exception is `Except.error`. -/
def Scaler : Type := List ℚ → Except String (List ℚ)

/-- State of one artifact file on disk, as seen by `load_models`:
absent (`os.path.exists` false), present but failing to deserialize
(`joblib.load` raises), or present and loading to an artifact. -/
inductive FileState (α : Type) : Type
  | missing : FileState α
  | corrupt : FileState α
  | good : α → FileState α

/-- The mutable state of the Python `PredictionService` object:
`self.models`, `self.scalers` (insertion-ordered string-keyed dicts,
modelled as association lists) and `self.is_loaded`. -/
structure Service : Type where
  models : List (String × Model)
  scalers : List (String × Scaler)
  is_loaded : Bool

/-- The `student_data` dict: semantically relevant keys, each possibly
absent (Python `dict.get(key, default)` supplies the default). -/
structure StudentData : Type where
  usn : Option String
  name : Option String
  sem1 : Option ℚ
  sem2 : Option ℚ
  sem3 : Option ℚ
  sem4 : Option ℚ
  sem5 : Option ℚ
  sem6 : Option ℚ

/-- A database `Student` row (`usn`, `name`, `sem1..sem6` are NOT NULL
in the schema, hence plain fields). -/
structure Student : Type where
  usn : String
  name : String
  sem1 : ℚ
  sem2 : ℚ
  sem3 : ℚ
  sem4 : ℚ
  sem5 : ℚ
  sem6 : ℚ

/-- Python dict lookup `d[k]` / `k in d`, on an association list. -/
def lookupA {α : Type} (l : List (String × α)) (k : String) : Option α :=
  (l.find? (fun p => p.1 == k)).map Prod.snd

/-- Python dict assignment `d[k] = v`: replaces in place if the key is
present (keeping its position), appends otherwise. -/
def insertA {α : Type} (l : List (String × α)) (k : String) (v : α) :
    List (String × α) :=
  match l with
  | [] => [(k, v)]
  | p :: rest => if p.1 == k then (k, v) :: rest else p :: insertA rest k v

/-- `round(x, 2)` in exact-rational semantics: round `100·x` to the
nearest integer, divide by 100. -/
def round2 (x : ℚ) : ℚ := ((round (x * 100) : ℤ) : ℚ) / 100

/-- `round(x, 2)` on the real-valued confidence. -/
noncomputable def round2R (x : ℝ) : ℝ := ((round (x * 100) : ℤ) : ℝ) / 100

/-- `np.mean` of a vector. -/
def listMean (l : List ℚ) : ℚ := l.sum / (l.length : ℚ)

/-- Population variance (`np.std(...)**2`, `ddof = 0`). -/
def popVar (l : List ℚ) : ℚ :=
  ((l.map (fun x => (x - listMean l) ^ 2)).sum) / (l.length : ℚ)

/-- The fixed `(name, filename)` catalog of `load_models` for models. -/
def model_files : List (String × String) :=
  [("linear", "linear_model.pkl"),
   ("ridge", "ridge_model.pkl"),
   ("lasso", "lasso_model.pkl"),
   ("random_forest", "random_forest_model.pkl"),
   ("gradient_boosting", "gradient_boosting_model.pkl"),
   ("ensemble", "ensemble_model.pkl")]

/-- The fixed `(name, filename)` catalog of `load_models` for scalers. -/
def scaler_files : List (String × String) :=
  [("linear", "linear_scaler.pkl"),
   ("ridge", "ridge_scaler.pkl"),
   ("lasso", "lasso_scaler.pkl")]

/-- One `for name, filename in files.items():` loop of `load_models`,
accumulating into the live dict `acc`.  A `missing` file is skipped; a
`corrupt` file raises out of the loop (second component `true`), leaving
the entries inserted so far; a `good` file is inserted.  The whole loop
body sits inside the single `try:` of `load_models`, so the raise aborts
the remainder of the loop. -/
def loadLoop {α : Type} (fs : String → FileState α) :
    List (String × String) → List (String × α) → List (String × α) × Bool
  | [], acc => (acc, false)
  | item :: rest, acc =>
    match fs item.2 with
    | FileState.missing => loadLoop fs rest acc
    | FileState.corrupt => (acc, true)
    | FileState.good a => loadLoop fs rest (insertA acc item.1 a)

/-- `PredictionService.load_models` (bento_service.py lines 22-59).
`fsm`/`fss` give the on-disk state of each model/scaler filename.  The
single `try` wraps both loops and the `self.is_loaded = True`; the
`except` sets `self.is_loaded = False`.  Note the loops assign into the
EXISTING `self.models` / `self.scalers` dicts. -/
def load_models (fsm : String → FileState Model)
    (fss : String → FileState Scaler) (svc : Service) : Service :=
  if (loadLoop fsm model_files svc.models).2 then
    { models := (loadLoop fsm model_files svc.models).1,
      scalers := svc.scalers, is_loaded := false }
  else if (loadLoop fss scaler_files svc.scalers).2 then
    { models := (loadLoop fsm model_files svc.models).1,
      scalers := (loadLoop fss scaler_files svc.scalers).1, is_loaded := false }
  else
    { models := (loadLoop fsm model_files svc.models).1,
      scalers := (loadLoop fss scaler_files svc.scalers).1, is_loaded := true }

/-- `PredictionService.prepare_features` (lines 61-74): the fixed-order
6-element vector, substituting 0 for a missing key. -/
def prepare_features (sd : StudentData) : List ℚ :=
  [sd.sem1.getD 0, sd.sem2.getD 0, sd.sem3.getD 0,
   sd.sem4.getD 0, sd.sem5.getD 0, sd.sem6.getD 0]

/-- The static base-weight table with its `.get(model_name, 0.2)`
default (lines 91-97 and 106). -/
def model_weights (n : String) : ℚ :=
  if n = "linear" then 15 / 100
  else if n = "ridge" then 20 / 100
  else if n = "lasso" then 10 / 100
  else if n = "random_forest" then 25 / 100
  else if n = "gradient_boosting" then 30 / 100
  else 20 / 100

/-- Lines 83-85: `if "ridge" in self.scalers: features =
self.scalers["ridge"].transform(features)`.  The transform call is NOT
inside a `try`, so its exception propagates out of `predict_single`. -/
def scaledFeatures (svc : Service) (sd : StudentData) :
    Except String (List ℚ) :=
  match lookupA svc.scalers "ridge" with
  | some sc => sc (prepare_features sd)
  | none => Except.ok (prepare_features sd)

/-- Lines 99-108: the `predictions` dict after the per-model loop — each
loaded model except the reserved `"ensemble"` entry is called on the one
feature vector `fts`; a model whose `predict` raises is skipped. -/
def predsOf (svc : Service) (fts : List ℚ) : List (String × ℚ) :=
  svc.models.filterMap (fun p =>
    if p.1 = "ensemble" then none
    else
      match p.2 fts with
      | Except.ok v => some (p.1, v)
      | Except.error _ => none)

/-- Line 112: `total_weight = sum(weights.values())` — the `weights`
dict holds `model_weights name` exactly for the names in `predictions`. -/
def totalWeight (preds : List (String × ℚ)) : ℚ :=
  (preds.map (fun p => model_weights p.1)).sum

/-- Lines 111-120: the weighted ensemble estimate when at least one
prediction succeeded, else the mean of the raw (re-prepared, unscaled)
feature vector. -/
def ensemblePredOf (sd : StudentData) (preds : List (String × ℚ)) : ℚ :=
  if preds.isEmpty then listMean (prepare_features sd)
  else (preds.map (fun p => p.2 * (model_weights p.1 / totalWeight preds))).sum

/-- Lines 125-130: agreement-based confidence from `np.std` of the
individual predictions. -/
noncomputable def confidenceOf (preds : List (String × ℚ)) : ℝ :=
  if 1 < preds.length then
    max (1 / 2) (1 - Real.sqrt ((popVar (preds.map Prod.snd) : ℚ)) / 20)
  else 1 / 2

/-- `PredictionService._generate_factors` (lines 145-175). -/
def generate_factors (sd : StudentData) (_prediction : ℚ) : List String :=
  (if sd.sem1.getD 0 < sd.sem6.getD 0 then ["Consistent improvement trend"]
   else if sd.sem6.getD 0 < sd.sem1.getD 0 then ["Declining performance trend"]
   else ["Stable performance"]) ++
  (if 85 ≤ sd.sem6.getD 0 then ["Strong academic foundation"]
   else if 70 ≤ sd.sem6.getD 0 then ["Moderate performance level"]
   else ["Needs improvement in core subjects"]) ++
  (if sd.sem5.getD 0 < sd.sem6.getD 0 then ["Recent upward trend in Semester 6"]
   else if sd.sem6.getD 0 < sd.sem5.getD 0 then ["Performance dropped in final semester"]
   else [])

/-- The successfully returned dict of `predict_single` (lines 135-143). -/
structure PredResult : Type where
  usn : Option String
  name : Option String
  predicted_grade : ℚ
  confidence : ℝ
  model_used : String
  individual_predictions : List (String × ℚ)
  factors : List String

/-- Lines 87-143 of `predict_single`, after the feature vector `fts` has
been (possibly) scaled: per-model predictions, weighted combination or
raw-mean degradation, clamp to [0,100], confidence, factors, and the
rounded output dict. -/
noncomputable def predictCore (svc : Service) (sd : StudentData)
    (fts : List ℚ) : PredResult :=
  { usn := sd.usn
    name := sd.name
    predicted_grade :=
      round2 (max 0 (min 100 (ensemblePredOf sd (predsOf svc fts))))
    confidence := round2R (confidenceOf (predsOf svc fts))
    model_used := "ensemble"
    individual_predictions :=
      (predsOf svc fts).map (fun p => (p.1, round2 p.2))
    factors :=
      generate_factors sd (max 0 (min 100 (ensemblePredOf sd (predsOf svc fts)))) }

/-- `PredictionService.predict_single` (lines 76-143) on a service state.
(The lazy `self.load_models()` on a not-yet-loaded service touches the
filesystem and is modelled by applying `load_models` to the state before
calling; it does not otherwise change the control flow below.)  The only
uncaught raise point is the ridge scaler's `transform`. -/
noncomputable def predict_single (svc : Service) (sd : StudentData) :
    Except String PredResult :=
  match scaledFeatures svc sd with
  | Except.error e => Except.error e
  | Except.ok fts => Except.ok (predictCore svc sd fts)

/-- The error dict appended by `batch_predict` when `predict_single`
raises (lines 187-196). -/
structure ErrorEntry : Type where
  usn : Option String
  name : Option String
  predicted_grade : ℚ
  confidence : ℚ
  model_used : String
  error : String

/-- One element of the heterogeneous list returned by `batch_predict`. -/
inductive BatchItem : Type
  | success : PredResult → BatchItem
  | failure : ErrorEntry → BatchItem

/-- The error entry for a failed item (lines 188-196). -/
def errorEntry (sd : StudentData) (e : String) : ErrorEntry :=
  { usn := sd.usn, name := sd.name, predicted_grade := 0, confidence := 0,
    model_used := "error", error := e }

/-- One iteration of `batch_predict`'s loop body (lines 181-196):
`try: ... predict_single ... except: ...` append the error entry. -/
noncomputable def batchItemOf (svc : Service) (sd : StudentData) : BatchItem :=
  match predict_single svc sd with
  | Except.ok r => BatchItem.success r
  | Except.error e => BatchItem.failure (errorEntry sd e)

/-- `PredictionService.batch_predict` (lines 177-198): one result per
input student, in order; a raising `predict_single` is caught and
replaced in place by the error entry. -/
noncomputable def batch_predict (svc : Service) (students : List StudentData) :
    List BatchItem :=
  students.map (batchItemOf svc)

/-- The router's `PredictionResponse` schema fields relevant here. -/
structure PredictionResponse : Type where
  usn : String
  name : String
  predicted_grade : ℚ
  confidence : ℝ
  model_used : String
  factors : List String

/-- predictions.py lines 86-110 (and 184-212): the fallback tier —
average of the six scores plus the sem6−sem1 trend correction, clamped,
with fixed confidence 0.5 and the fixed factor list. -/
noncomputable def fallback_prediction (s : Student) : PredictionResponse :=
  { usn := s.usn
    name := s.name
    predicted_grade :=
      round2 (min 100 (max 0
        ((s.sem1 + s.sem2 + s.sem3 + s.sem4 + s.sem5 + s.sem6) / 6 +
          (s.sem6 - s.sem1) / 6)))
    confidence := 1 / 2
    model_used := "fallback"
    factors := ["Based on historical average"] }

/-- The `student_data` dict the router builds from a resolved row
(predictions.py lines 127-138). -/
def studentToData (s : Student) : StudentData :=
  { usn := some s.usn, name := some s.name,
    sem1 := some s.sem1, sem2 := some s.sem2, sem3 := some s.sem3,
    sem4 := some s.sem4, sem5 := some s.sem5, sem6 := some s.sem6 }

/-- predictions.py lines 151-171: rebuilding a `PredictionResponse` from
one ML-service prediction dict, with `.get` defaults (`""` for strings,
0 for numbers, `[]` for factors — an error entry has no factors key). -/
noncomputable def itemToResponse (it : BatchItem) : PredictionResponse :=
  match it with
  | BatchItem.success r =>
    { usn := r.usn.getD "", name := r.name.getD "",
      predicted_grade := r.predicted_grade, confidence := r.confidence,
      model_used := r.model_used, factors := r.factors }
  | BatchItem.failure e =>
    { usn := e.usn.getD "", name := e.name.getD "",
      predicted_grade := e.predicted_grade,
      confidence := (e.confidence : ℝ),
      model_used := e.model_used, factors := [] }

/-- Outcome of the router's attempt to reach the ML service: the call
succeeds; or httpx fails and `call_ml_service` raises `HTTPException`
503 which the router re-raises; or a non-HTTP exception in the `try`
body sends the router to its per-item fallback branch. -/
inductive MLOutcome : Type
  | ok : MLOutcome
  | http_unavailable : MLOutcome
  | degraded : MLOutcome
  deriving DecidableEq

/-- `predict_batch_students` (predictions.py lines 113-218): resolve
each usn in order, dropping unresolved ones; 404 if none resolved; then
either the ML batch path, the re-raised 503, or the per-item fallback. -/
noncomputable def predict_batch_students (svc : Service)
    (db : String → Option Student) (ml : MLOutcome) (usns : List String) :
    Except Nat (List PredictionResponse) :=
  if (usns.filterMap db).isEmpty then Except.error 404
  else
    match ml with
    | MLOutcome.ok =>
      Except.ok ((batch_predict svc ((usns.filterMap db).map studentToData)).map
        itemToResponse)
    | MLOutcome.http_unavailable => Except.error 503
    | MLOutcome.degraded =>
      Except.ok ((usns.filterMap db).map fallback_prediction)

/-!  Concrete fixtures used to instantiate the theorems. -/

/-- A student record with the spec's example scores 70,72,75,78,80,82. -/
def st70 : Student :=
  { usn := "1AB21CS001", name := "Asha", sem1 := 70, sem2 := 72, sem3 := 75,
    sem4 := 78, sem5 := 80, sem6 := 82 }

/-- The same record as an input dict. -/
def sd0 : StudentData := studentToData st70

/-- A model artifact whose `predict` always returns `v`. -/
def mConst (v : ℚ) : Model := fun _ => Except.ok v

/-- A scaler artifact whose `transform` raises. -/
def scFail : Scaler := fun _ => Except.error "scaler failure"

/-- A scaler artifact that halves every feature. -/
def scHalf : Scaler := fun l => Except.ok (l.map (fun x => x / 2))

/-- A service with one loaded model and no scalers. -/
def svc1 : Service := { models := [("linear", mConst 75)], scalers := [], is_loaded := true }

/-- A service with two loaded models (predicting 10 and 14) and no scalers. -/
def svc2 : Service :=
  { models := [("linear", mConst 10), ("ridge", mConst 14)], scalers := [],
    is_loaded := true }

/-- A service with no artifacts at all, load attempt completed. -/
def svcNoModels : Service := { models := [], scalers := [], is_loaded := true }

/-- A service whose only artifact is a ridge scaler that raises. -/
def svcScalerFail : Service :=
  { models := [], scalers := [("ridge", scFail)], is_loaded := true }

/-- A service with one model and a working ridge scaler. -/
def svc7 : Service :=
  { models := [("linear", mConst 75)], scalers := [("ridge", scHalf)],
    is_loaded := true }

/-- A never-loaded service with empty registries. -/
def emptySvc : Service := { models := [], scalers := [], is_loaded := false }

/-- A model directory with no files at all. -/
def fsNone {α : Type} : String → FileState α := fun _ => FileState.missing

/-- A model directory where only `linear_model.pkl` exists and loads. -/
def fsLinearOnly : String → FileState Model := fun fn =>
  if fn = "linear_model.pkl" then FileState.good (mConst 75) else FileState.missing

/-- A model directory where only `ridge_model.pkl` exists and loads. -/
def fsRidgeOnly : String → FileState Model := fun fn =>
  if fn = "ridge_model.pkl" then FileState.good (mConst 50) else FileState.missing

/-- A model directory where `linear` and `lasso` deserialize fine but
`ridge_model.pkl` exists and fails to deserialize. -/
def fsCorruptRidge : String → FileState Model := fun fn =>
  if fn = "linear_model.pkl" then FileState.good (mConst 75)
  else if fn = "ridge_model.pkl" then FileState.corrupt
  else if fn = "lasso_model.pkl" then FileState.good (mConst 60)
  else FileState.missing

/-- A database resolving only `"s1"` and `"s3"`. -/
def db1 : String → Option Student := fun u =>
  if u = "s1" then some { st70 with usn := "s1" }
  else if u = "s3" then some { st70 with usn := "s3" }
  else none

/-- An empty database. -/
def dbNone : String → Option Student := fun _ => none

/-!  Definitions written from the spec's words, for refinement claims. -/

/-- Modelled from the spec: FactorExplainer trend factor (§4.4 rule 1). -/
def trendFactorSpec (sd : StudentData) : String :=
  if sd.sem6.getD 0 > sd.sem1.getD 0 then "Consistent improvement trend"
  else if sd.sem6.getD 0 < sd.sem1.getD 0 then "Declining performance trend"
  else "Stable performance"

/-- Modelled from the spec: FactorExplainer level factor (§4.4 rule 2),
with the spec's `70 ≤ sem6 < 85` middle band. -/
def levelFactorSpec (sd : StudentData) : String :=
  if sd.sem6.getD 0 ≥ 85 then "Strong academic foundation"
  else if 70 ≤ sd.sem6.getD 0 ∧ sd.sem6.getD 0 < 85 then "Moderate performance level"
  else "Needs improvement in core subjects"

/-- Modelled from the spec: FactorExplainer recent-delta factor
(§4.4 rule 3), appended only if nonzero. -/
def recentDeltaSpec (sd : StudentData) : List String :=
  if sd.sem6.getD 0 > sd.sem5.getD 0 then ["Recent upward trend in Semester 6"]
  else if sd.sem6.getD 0 < sd.sem5.getD 0 then ["Performance dropped in final semester"]
  else []

/-! ## Helper lemmas -/

theorem clamp_comm (x : ℚ) : max 0 (min 100 x) = min 100 (max 0 x) := by
  rw [max_min_distrib_left]
  norm_num

theorem listMean_six (a b c d e f : ℚ) :
    listMean [a, b, c, d, e, f] = (a + b + c + d + e + f) / 6 := by
  unfold listMean
  norm_num
  ring

theorem lookupA_insertA_self {α : Type} (l : List (String × α)) (k : String)
    (v : α) : lookupA (insertA l k v) k = some v := by
  induction l with
  | nil => simp [insertA, lookupA]
  | cons p rest ih =>
    by_cases hpk : p.1 = k
    · simp [insertA, hpk, lookupA]
    · simp only [insertA, lookupA] at ih ⊢
      simp [hpk, ih]

theorem lookupA_insertA_ne {α : Type} (l : List (String × α)) (k k' : String)
    (v : α) (h : k' ≠ k) : lookupA (insertA l k v) k' = lookupA l k' := by
  induction l with
  | nil => simp [insertA, lookupA, Ne.symm h]
  | cons p rest ih =>
    by_cases hpk : p.1 = k
    · by_cases hpk' : p.1 = k'
      · exact absurd (hpk'.symm.trans hpk) h
      · simp [insertA, hpk, lookupA, Ne.symm h, hpk']
    · by_cases hpk' : p.1 = k'
      · simp [insertA, lookupA, hpk', h]
      · simp only [insertA, lookupA] at ih ⊢
        simp [hpk, hpk', ih]

theorem loadLoop_no_corrupt_snd {α : Type} (fs : String → FileState α)
    (items : List (String × String))
    (hnc : ∀ p ∈ items, fs p.2 ≠ FileState.corrupt) :
    ∀ acc, (loadLoop fs items acc).2 = false := by
  induction items with
  | nil => intro acc; rfl
  | cons it rest ih =>
    intro acc
    unfold loadLoop
    cases hfs : fs it.2 with
    | missing => exact ih (fun p hp => hnc p (List.mem_cons_of_mem _ hp)) acc
    | corrupt => exact absurd hfs (hnc it (List.mem_cons_self _ _))
    | good a => exact ih (fun p hp => hnc p (List.mem_cons_of_mem _ hp)) _

theorem loadLoop_lookup_notmem {α : Type} (fs : String → FileState α)
    (items : List (String × String)) (n : String)
    (hn : n ∉ items.map Prod.fst) :
    ∀ acc, lookupA (loadLoop fs items acc).1 n = lookupA acc n := by
  induction items with
  | nil => intro acc; rfl
  | cons it rest ih =>
    intro acc
    have hn' : n ∉ rest.map Prod.fst := fun h => hn (by simp [h])
    have hne : n ≠ it.1 := fun h => hn (by simp [h])
    unfold loadLoop
    cases hfs : fs it.2 with
    | missing => exact ih hn' acc
    | corrupt => rfl
    | good a => rw [ih hn' _, lookupA_insertA_ne _ _ _ _ hne]

theorem loadLoop_good_lookup {α : Type} (fs : String → FileState α)
    (items : List (String × String)) (hnd : (items.map Prod.fst).Nodup)
    (hnc : ∀ p ∈ items, fs p.2 ≠ FileState.corrupt) :
    ∀ acc n fn a, (n, fn) ∈ items → fs fn = FileState.good a →
      lookupA (loadLoop fs items acc).1 n = some a := by
  induction items with
  | nil => intro acc n fn a h; exact absurd h (List.not_mem_nil _)
  | cons it rest ih =>
    intro acc n fn a hmem hgood
    have hnd' : (rest.map Prod.fst).Nodup := (List.nodup_cons.mp hnd).2
    have hnc' : ∀ p ∈ rest, fs p.2 ≠ FileState.corrupt :=
      fun p hp => hnc p (List.mem_cons_of_mem _ hp)
    rcases List.mem_cons.mp hmem with heq | hmem'
    · have hit2 : fs it.2 = FileState.good a := by rw [← heq]; exact hgood
      have hit1 : it.1 = n := by rw [← heq]
      have hout : n ∉ rest.map Prod.fst := by
        rw [← hit1]; exact (List.nodup_cons.mp hnd).1
      simp only [loadLoop, hit2]
      rw [loadLoop_lookup_notmem fs rest n hout, hit1, lookupA_insertA_self]
    · cases hfs : fs it.2 with
      | missing =>
        simp only [loadLoop, hfs]
        exact ih hnd' hnc' acc n fn a hmem' hgood
      | corrupt => exact absurd hfs (hnc it (List.mem_cons_self _ _))
      | good b =>
        simp only [loadLoop, hfs]
        exact ih hnd' hnc' _ n fn a hmem' hgood

/-! ## C4: the fallback tier -/

/-- C4 counterexample: for scores 70,72,75,78,80,82 the fallback tier's
returned `predicted_grade` is NOT 78.1667 — the round-to-two-decimals
output convention yields 78.17. -/
theorem fallback_value_cex :
    (fallback_prediction st70).predicted_grade ≠ 781667 / 10000 := by
  norm_num [fallback_prediction, st70, round2, round_eq, min_def, max_def]

/-- C4 (amended): the fallback tier is a pure function of the six scores:
`predicted = clamp(mean(sem1..sem6) + (sem6 − sem1)/6, 0, 100)` rounded to
two decimals, `confidence = 0.5`, `model_used = "fallback"`, `factors =
["Based on historical average"]`; for scores 70,72,75,78,80,82 the rounded
output is 78.17 (the unrounded value is 469/6 = 78.1666…). -/
theorem fallback_prediction_spec :
    (∀ s : Student,
      (fallback_prediction s).predicted_grade =
        round2 (max 0 (min 100
          (listMean [s.sem1, s.sem2, s.sem3, s.sem4, s.sem5, s.sem6] +
            (s.sem6 - s.sem1) / 6))) ∧
      (fallback_prediction s).confidence = 1 / 2 ∧
      (fallback_prediction s).model_used = "fallback" ∧
      (fallback_prediction s).factors = ["Based on historical average"]) ∧
    (fallback_prediction st70).predicted_grade = 7817 / 100 := by
  constructor
  · intro s
    refine ⟨?_, rfl, rfl, rfl⟩
    show round2 (min 100 (max 0 _)) = round2 (max 0 (min 100 _))
    rw [listMean_six, clamp_comm]
  · norm_num [fallback_prediction, st70, round2, round_eq, min_def, max_def]

/-! ## C8: the factor explainer -/

/-- C8: the factor list is deterministic, order-fixed and threshold-exact:
trend factor first, level factor second, recent-delta factor appended only
when `sem6 ≠ sem5`, each with the spec's exact thresholds and strings; the
prediction argument is ignored, so identical inputs yield identical lists. -/
theorem generate_factors_ordered_spec (sd : StudentData) (p q : ℚ) :
    generate_factors sd p =
      trendFactorSpec sd :: levelFactorSpec sd :: recentDeltaSpec sd ∧
    generate_factors sd p = generate_factors sd q := by
  refine ⟨?_, rfl⟩
  unfold generate_factors trendFactorSpec levelFactorSpec recentDeltaSpec
  by_cases h1 : 85 ≤ sd.sem6.getD 0
  · split_ifs <;> rfl
  · by_cases h2 : 70 ≤ sd.sem6.getD 0
    · rw [if_neg h1, if_neg h1, if_pos h2,
        if_pos (show 70 ≤ sd.sem6.getD 0 ∧ sd.sem6.getD 0 < 85 from
          ⟨h2, lt_of_not_le h1⟩)]
      split_ifs <;> rfl
    · rw [if_neg h1, if_neg h1, if_neg h2,
        if_neg (show ¬(70 ≤ sd.sem6.getD 0 ∧ sd.sem6.getD 0 < 85) from
          fun hc => h2 hc.1)]
      split_ifs <;> rfl

/-! ## C5: loading skips or aborts -/

/-- C5 counterexample: with `linear_model.pkl` and `lasso_model.pkl`
deserializing fine but `ridge_model.pkl` failing to deserialize, the load
is aborted at ridge: lasso never reaches the registry and the readiness
flag ends up false — contradicting "skipped without aborting the rest"
and "readiness true regardless". -/
theorem load_models_corrupt_aborts_cex :
    ("lasso" ∉ (load_models fsCorruptRidge fsNone emptySvc).models.map Prod.fst) ∧
    (load_models fsCorruptRidge fsNone emptySvc).is_loaded = false ∧
    (load_models fsCorruptRidge fsNone emptySvc).models.map Prod.fst = ["linear"] := by
  refine ⟨by decide, rfl, rfl⟩

/-- C5 (amended): a MISSING artifact file is skipped without aborting the
load; but a deserialization failure aborts the remainder (artifacts loaded
before it stay in the registry, later ones are never attempted) and leaves
the readiness flag false.  When no present file fails to deserialize, every
present artifact ends up in the registry and the readiness flag is true. -/
theorem load_models_no_corrupt_spec (fsm : String → FileState Model)
    (fss : String → FileState Scaler) (svc : Service)
    (hm : ∀ fn, fsm fn ≠ FileState.corrupt)
    (hs : ∀ fn, fss fn ≠ FileState.corrupt) :
    (load_models fsm fss svc).is_loaded = true ∧
    (∀ n fn a, (n, fn) ∈ model_files → fsm fn = FileState.good a →
      lookupA (load_models fsm fss svc).models n = some a) ∧
    (∀ n fn a, (n, fn) ∈ scaler_files → fss fn = FileState.good a →
      lookupA (load_models fsm fss svc).scalers n = some a) := by
  have hm2 : (loadLoop fsm model_files svc.models).2 = false :=
    loadLoop_no_corrupt_snd fsm model_files (fun p _ => hm p.2) svc.models
  have hs2 : (loadLoop fss scaler_files svc.scalers).2 = false :=
    loadLoop_no_corrupt_snd fss scaler_files (fun p _ => hs p.2) svc.scalers
  have hload : load_models fsm fss svc =
      { models := (loadLoop fsm model_files svc.models).1,
        scalers := (loadLoop fss scaler_files svc.scalers).1,
        is_loaded := true } := by
    unfold load_models
    simp [hm2, hs2]
  refine ⟨by rw [hload], ?_, ?_⟩
  · intro n fn a hmem hgood
    rw [hload]
    exact loadLoop_good_lookup fsm model_files (by decide)
      (fun p _ => hm p.2) svc.models n fn a hmem hgood
  · intro n fn a hmem hgood
    rw [hload]
    exact loadLoop_good_lookup fss scaler_files (by decide)
      (fun p _ => hs p.2) svc.scalers n fn a hmem hgood

/-- Witness for the amended C5 theorem: a directory holding only a good
`linear_model.pkl` loads it and raises readiness. -/
theorem load_models_no_corrupt_spec_witness :
    (∀ fn, fsLinearOnly fn ≠ FileState.corrupt) ∧
    lookupA (load_models fsLinearOnly fsNone emptySvc).models "linear" =
      some (mConst 75) ∧
    (load_models fsLinearOnly fsNone emptySvc).is_loaded = true := by
  have hm : ∀ fn, fsLinearOnly fn ≠ FileState.corrupt := by
    intro fn
    unfold fsLinearOnly
    split <;> exact fun h => FileState.noConfusion h
  have hs : ∀ fn, (fsNone : String → FileState Scaler) fn ≠ FileState.corrupt :=
    fun _ h => FileState.noConfusion h
  have h := load_models_no_corrupt_spec fsLinearOnly fsNone emptySvc hm hs
  exact ⟨hm, h.2.1 "linear" "linear_model.pkl" (mConst 75) (by decide)
    (by unfold fsLinearOnly; rw [if_pos rfl]), h.1⟩

/-! ## C6: reload is not a fresh atomic registry -/

/-- C6 counterexample: a reload against an empty model directory leaves
the old `linear` entry in the published registry (while a fresh registry
built from the same directory is empty), and a reload seeing only a new
ridge file yields a registry mixing the old `linear` with the new
`ridge` — so reload mutates the live registry rather than building a
brand-new one, and mixed-generation registries are observable. -/
theorem load_models_not_fresh_cex :
    (load_models fsNone fsNone svc1).models.map Prod.fst = ["linear"] ∧
    (load_models fsNone fsNone svc1).is_loaded = true ∧
    (load_models fsNone fsNone emptySvc).models.map Prod.fst = [] ∧
    (load_models fsRidgeOnly fsNone svc1).models.map Prod.fst = ["linear", "ridge"] :=
  ⟨rfl, rfl, rfl, rfl⟩

/-- C6 (amended): the retrain trigger reloads INTO the live registry's
maps in place: artifacts whose files are absent from the model directory
persist from the previous generation — a reload with an empty directory
returns the service with every old artifact intact and only the readiness
flag (re)raised — so a reload can publish a mixture of old and new
artifacts rather than an atomically-swapped brand-new registry. -/
theorem load_models_in_place (svc : Service) :
    load_models fsNone fsNone svc = { svc with is_loaded := true } := by
  cases svc
  rfl

/-! ## Helper lemmas for the ensemble core -/

theorem model_weights_pos (n : String) : 0 < model_weights n := by
  unfold model_weights
  split_ifs <;> norm_num

theorem totalWeight_pos {preds : List (String × ℚ)} (h : preds ≠ []) :
    0 < totalWeight preds := by
  unfold totalWeight
  apply List.sum_pos
  · intro x hx
    obtain ⟨p, _, rfl⟩ := List.mem_map.mp hx
    exact model_weights_pos p.1
  · simpa using h

theorem list_map_sum_div {α : Type} (l : List α) (f : α → ℚ) (c : ℚ) :
    (l.map (fun x => f x / c)).sum = (l.map f).sum / c := by
  induction l with
  | nil => simp
  | cons x xs ih => simp [ih, add_div]

theorem ensemblePred_eq {sd : StudentData} {preds : List (String × ℚ)}
    (h : preds ≠ []) :
    ensemblePredOf sd preds =
      (preds.map (fun p => p.2 * model_weights p.1)).sum / totalWeight preds := by
  unfold ensemblePredOf
  rw [if_neg (show ¬preds.isEmpty = true by simpa [List.isEmpty_iff] using h)]
  rw [show (fun p : String × ℚ => p.2 * (model_weights p.1 / totalWeight preds)) =
      (fun p : String × ℚ => (p.2 * model_weights p.1) / totalWeight preds) from
    funext (fun p => by rw [mul_div_assoc])]
  exact list_map_sum_div preds (fun p => p.2 * model_weights p.1) (totalWeight preds)

theorem effWeights_sum_one {preds : List (String × ℚ)} (h : preds ≠ []) :
    (preds.map (fun p => model_weights p.1 / totalWeight preds)).sum = 1 := by
  rw [list_map_sum_div preds (fun p => model_weights p.1) (totalWeight preds)]
  have hw : (preds.map (fun p => model_weights p.1)).sum = totalWeight preds := rfl
  rw [hw]
  exact div_self (ne_of_gt (totalWeight_pos h))

theorem mem_predsOf {svc : Service} {fts : List ℚ} {n : String} {v : ℚ} :
    (n, v) ∈ predsOf svc fts ↔
      n ≠ "ensemble" ∧ ∃ m, (n, m) ∈ svc.models ∧ m fts = Except.ok v := by
  unfold predsOf
  rw [List.mem_filterMap]
  constructor
  · rintro ⟨⟨n', m⟩, hmem, hf⟩
    dsimp only at hf
    by_cases hens : n' = "ensemble"
    · rw [if_pos hens] at hf
      exact absurd hf (by simp)
    · rw [if_neg hens] at hf
      cases hm : m fts with
      | ok w =>
        rw [hm] at hf
        simp only [Option.some.injEq, Prod.mk.injEq] at hf
        obtain ⟨rfl, rfl⟩ := hf
        exact ⟨hens, m, hmem, hm⟩
      | error e =>
        rw [hm] at hf
        exact absurd hf (by simp)
  · rintro ⟨hens, m, hmem, hok⟩
    refine ⟨(n, m), hmem, ?_⟩
    dsimp only
    rw [if_neg hens, hok]

theorem round2R_half : round2R (1 / 2) = 1 / 2 := by
  unfold round2R
  rw [show (1 / 2 : ℝ) * 100 = ((50 : ℤ) : ℝ) by norm_num, round_intCast]
  norm_num

theorem round2R_bounds {x : ℝ} (h1 : 1 / 2 ≤ x) (h2 : x ≤ 1) :
    1 / 2 ≤ round2R x ∧ round2R x ≤ 1 := by
  unfold round2R
  have hl : (50 : ℤ) ≤ round (x * 100) := by
    rw [round_eq]
    exact Int.le_floor.mpr (by push_cast; linarith)
  have hu : round (x * 100) ≤ 100 := by
    rw [round_eq]
    have h101 : ⌊x * 100 + 1 / 2⌋ < (101 : ℤ) :=
      Int.floor_lt.mpr (by push_cast; linarith)
    omega
  constructor
  · have hc : ((50 : ℤ) : ℝ) ≤ ((round (x * 100) : ℤ) : ℝ) := by exact_mod_cast hl
    push_cast at hc ⊢
    linarith
  · have hc : ((round (x * 100) : ℤ) : ℝ) ≤ ((100 : ℤ) : ℝ) := by exact_mod_cast hu
    push_cast at hc ⊢
    linarith

theorem confidenceOf_bounds (preds : List (String × ℚ)) :
    1 / 2 ≤ confidenceOf preds ∧ confidenceOf preds ≤ 1 := by
  unfold confidenceOf
  split_ifs
  · constructor
    · exact le_max_left _ _
    · apply max_le (by norm_num)
      have hs := Real.sqrt_nonneg ((popVar (preds.map Prod.snd) : ℚ) : ℝ)
      linarith
  · norm_num

/-! ## C1: weighted, renormalized combination -/

/-- C1: whenever the scaling step succeeds and at least one model
prediction succeeds, the returned point estimate is
`round2 (clamp (Σ prediction·weight / Σ weight, 0, 100))`, the sum taken
over exactly the non-`"ensemble"` models whose predict succeeded, with
weights from the static table (default 0.2); equivalently the effective
per-model weights sum to 1. -/
theorem predict_single_weighted_renormalized (svc : Service) (sd : StudentData)
    (fts : List ℚ) (hs : scaledFeatures svc sd = Except.ok fts)
    (hne : predsOf svc fts ≠ []) :
    predict_single svc sd = Except.ok (predictCore svc sd fts) ∧
    (predictCore svc sd fts).predicted_grade =
      round2 (max 0 (min 100
        (((predsOf svc fts).map (fun p => p.2 * model_weights p.1)).sum /
          totalWeight (predsOf svc fts)))) ∧
    ((predsOf svc fts).map
      (fun p => model_weights p.1 / totalWeight (predsOf svc fts))).sum = 1 ∧
    (∀ n v, (n, v) ∈ predsOf svc fts ↔
      n ≠ "ensemble" ∧ ∃ m, (n, m) ∈ svc.models ∧ m fts = Except.ok v) := by
  refine ⟨?_, ?_, effWeights_sum_one hne, fun n v => mem_predsOf⟩
  · unfold predict_single
    rw [hs]
  · show round2 (max 0 (min 100 (ensemblePredOf sd (predsOf svc fts)))) = _
    rw [ensemblePred_eq hne]

/-- Witness for C1: a service holding one model that predicts 75. -/
theorem predict_single_weighted_renormalized_witness :
    scaledFeatures svc1 sd0 = Except.ok (prepare_features sd0) ∧
    predsOf svc1 (prepare_features sd0) ≠ [] ∧
    ((predsOf svc1 (prepare_features sd0)).map
      (fun p => model_weights p.1 /
        totalWeight (predsOf svc1 (prepare_features sd0)))).sum = 1 :=
  ⟨rfl, by decide,
    (predict_single_weighted_renormalized svc1 sd0 (prepare_features sd0)
      rfl (by decide)).2.2.1⟩

/-! ## C2: agreement-based confidence -/

/-- C2: whenever `predict_single` returns a result, its confidence is
`round2(max(0.5, 1 − std/20))` (population standard deviation of the
individual predictions) when at least two predictions succeeded and
exactly 0.5 when at most one did; in all cases the returned confidence
lies in [0.5, 1]. -/
theorem predict_single_confidence_spec (svc : Service) (sd : StudentData)
    (r : PredResult) (hr : predict_single svc sd = Except.ok r) :
    (∀ fts, scaledFeatures svc sd = Except.ok fts →
      ((2 ≤ (predsOf svc fts).length →
        r.confidence = round2R (max (1 / 2)
          (1 - Real.sqrt ((popVar ((predsOf svc fts).map Prod.snd) : ℚ)) / 20))) ∧
       ((predsOf svc fts).length ≤ 1 → r.confidence = 1 / 2))) ∧
    1 / 2 ≤ r.confidence ∧ r.confidence ≤ 1 := by
  unfold predict_single at hr
  cases hsf : scaledFeatures svc sd with
  | error e =>
    rw [hsf] at hr
    cases hr
  | ok fts0 =>
    rw [hsf] at hr
    obtain rfl : predictCore svc sd fts0 = r := Except.ok.inj hr
    refine ⟨?_, ?_⟩
    · intro fts hfe
      obtain rfl : fts0 = fts := Except.ok.inj hfe
      constructor
      · intro h2
        show round2R (confidenceOf (predsOf svc fts0)) = _
        unfold confidenceOf
        rw [if_pos (by omega)]
      · intro h1
        show round2R (confidenceOf (predsOf svc fts0)) = 1 / 2
        unfold confidenceOf
        rw [if_neg (by omega)]
        exact round2R_half
    · have hb := confidenceOf_bounds (predsOf svc fts0)
      exact round2R_bounds hb.1 hb.2

/-- Witness for C2: a service with two models predicting 10 and 14. -/
theorem predict_single_confidence_spec_witness :
    predict_single svc2 sd0 =
      Except.ok (predictCore svc2 sd0 (prepare_features sd0)) ∧
    1 / 2 ≤ (predictCore svc2 sd0 (prepare_features sd0)).confidence ∧
    (predictCore svc2 sd0 (prepare_features sd0)).confidence ≤ 1 :=
  ⟨rfl, (predict_single_confidence_spec svc2 sd0
    (predictCore svc2 sd0 (prepare_features sd0)) rfl).2⟩

/-! ## C3: zero successful predictions -/

/-- C3 counterexample: a call in which zero model predictions succeed
(no models are loaded at all) can still end in an error rather than a
successful `"ensemble"` result: the ridge scaler's `transform` is outside
any `try`, so its exception propagates out of `predict_single`. -/
theorem predict_single_scaler_error_cex :
    svcScalerFail.models = [] ∧
    predict_single svcScalerFail sd0 = Except.error "scaler failure" :=
  ⟨rfl, rfl⟩

/-- C3 (amended): provided the feature-scaling step does not itself raise
(no ridge scaler, or its transform succeeds), a call with zero successful
model predictions returns a normal successful result whose point estimate
is the clamped mean of the raw, unscaled feature vector, with
`model_used = "ensemble"`. -/
theorem predict_single_zero_success_spec (svc : Service) (sd : StudentData)
    (fts : List ℚ) (hs : scaledFeatures svc sd = Except.ok fts)
    (hz : predsOf svc fts = []) :
    predict_single svc sd = Except.ok (predictCore svc sd fts) ∧
    (predictCore svc sd fts).predicted_grade =
      round2 (max 0 (min 100 (listMean (prepare_features sd)))) ∧
    (predictCore svc sd fts).model_used = "ensemble" := by
  refine ⟨?_, ?_, rfl⟩
  · unfold predict_single
    rw [hs]
  · show round2 (max 0 (min 100 (ensemblePredOf sd (predsOf svc fts)))) = _
    rw [hz]
    rfl

/-- Witness for the amended C3 theorem: a service with no artifacts. -/
theorem predict_single_zero_success_spec_witness :
    scaledFeatures svcNoModels sd0 = Except.ok (prepare_features sd0) ∧
    predsOf svcNoModels (prepare_features sd0) = [] ∧
    (predictCore svcNoModels sd0 (prepare_features sd0)).model_used = "ensemble" :=
  ⟨rfl, rfl,
    (predict_single_zero_success_spec svcNoModels sd0 (prepare_features sd0)
      rfl rfl).2.2⟩

/-! ## C7: one scaled vector for every model -/

/-- C7: when a scaler is registered under `"ridge"`, the single vector it
produces is the input of EVERY model's predict call (its failure aborts
the whole call); when none is registered, every model receives the raw
vector. -/
theorem predict_single_uniform_scaling (svc : Service) (sd : StudentData) :
    (∀ sc, lookupA svc.scalers "ridge" = some sc →
      ((∀ e, sc (prepare_features sd) = Except.error e →
        predict_single svc sd = Except.error e) ∧
       (∀ v, sc (prepare_features sd) = Except.ok v →
        predict_single svc sd = Except.ok (predictCore svc sd v) ∧
        (predictCore svc sd v).individual_predictions =
          (predsOf svc v).map (fun p => (p.1, round2 p.2)) ∧
        (∀ n u, (n, u) ∈ predsOf svc v ↔
          n ≠ "ensemble" ∧ ∃ m, (n, m) ∈ svc.models ∧ m v = Except.ok u)))) ∧
    (lookupA svc.scalers "ridge" = none →
      predict_single svc sd = Except.ok (predictCore svc sd (prepare_features sd))) := by
  constructor
  · intro sc hsc
    constructor
    · intro e he
      unfold predict_single scaledFeatures
      rw [hsc]
      dsimp only
      rw [he]
    · intro v hv
      refine ⟨?_, rfl, fun n u => mem_predsOf⟩
      unfold predict_single scaledFeatures
      rw [hsc]
      dsimp only
      rw [hv]
  · intro hnone
    unfold predict_single scaledFeatures
    rw [hnone]

/-- Witness for C7: a service with a halving ridge scaler and one model. -/
theorem predict_single_uniform_scaling_witness :
    lookupA svc7.scalers "ridge" = some scHalf ∧
    scHalf (prepare_features sd0) =
      Except.ok ((prepare_features sd0).map (fun x => x / 2)) ∧
    predict_single svc7 sd0 =
      Except.ok (predictCore svc7 sd0 ((prepare_features sd0).map (fun x => x / 2))) :=
  ⟨rfl, rfl,
    (((predict_single_uniform_scaling svc7 sd0).1 scHalf rfl).2
      ((prepare_features sd0).map (fun x => x / 2)) rfl).1⟩

/-! ## Helper lemmas for the batch pipelines -/

theorem predict_single_ok_ids {svc : Service} {sd : StudentData}
    {r : PredResult} (h : predict_single svc sd = Except.ok r) :
    r.usn = sd.usn ∧ r.name = sd.name := by
  unfold predict_single at h
  cases hsf : scaledFeatures svc sd with
  | error e =>
    rw [hsf] at h
    cases h
  | ok fts =>
    rw [hsf] at h
    obtain rfl : predictCore svc sd fts = r := Except.ok.inj h
    exact ⟨rfl, rfl⟩

theorem batchItemOf_usn (svc : Service) (s : Student) :
    (itemToResponse (batchItemOf svc (studentToData s))).usn = s.usn := by
  unfold batchItemOf
  cases h : predict_single svc (studentToData s) with
  | ok r =>
    have hu := (predict_single_ok_ids h).1
    simp [itemToResponse, hu, studentToData]
  | error e => simp [itemToResponse, errorEntry, studentToData]

/-! ## C9: batch resolution drops unresolved identifiers -/

/-- C9 counterexample: a batch in which NO identifier resolves is not
answered with an empty (or partial) result set — the endpoint aborts by
raising a 404, contradicting "dropped ... without raising and without
aborting the batch" read over every ordered list of identifiers. -/
theorem predict_batch_all_unresolved_cex :
    predict_batch_students svcNoModels dbNone MLOutcome.ok ["a", "b", "c"] =
      Except.error 404 := rfl

/-- C9 (amended): provided at least one identifier resolves and the ML
call does not fail at the HTTP level (which the router re-raises as 503),
unresolvable identifiers are silently dropped and the returned list has
exactly one entry per resolved identifier, preserving their relative
order (witnessed by the `usn` projection). -/
theorem predict_batch_resolved_order (svc : Service)
    (db : String → Option Student) (ml : MLOutcome) (usns : List String)
    (hne : (usns.filterMap db).length ≠ 0)
    (hml : ml ≠ MLOutcome.http_unavailable) :
    ∃ rs, predict_batch_students svc db ml usns = Except.ok rs ∧
      rs.map (fun r => r.usn) = (usns.filterMap db).map Student.usn ∧
      rs.length = (usns.filterMap db).length := by
  have hie : (usns.filterMap db).isEmpty = false := by
    cases h : usns.filterMap db with
    | nil => rw [h] at hne; simp at hne
    | cons a l => rfl
  unfold predict_batch_students
  rw [hie]
  simp only [Bool.false_eq_true, if_false]
  cases ml with
  | http_unavailable => exact absurd rfl hml
  | ok =>
    refine ⟨_, rfl, ?_, by simp [batch_predict]⟩
    unfold batch_predict
    rw [List.map_map, List.map_map, List.map_map]
    exact List.map_congr_left (fun s _ => batchItemOf_usn svc s)
  | degraded =>
    refine ⟨_, rfl, ?_, by simp⟩
    rw [List.map_map]
    exact List.map_congr_left (fun s _ => rfl)

/-- Witness for the amended C9 theorem: 3 identifiers, the middle one
unresolvable, yield exactly 2 results in their original order. -/
theorem predict_batch_resolved_order_witness :
    ((["s1", "s2", "s3"] : List String).filterMap db1).length ≠ 0 ∧
    ∃ rs, predict_batch_students svcNoModels db1 MLOutcome.ok ["s1", "s2", "s3"] =
        Except.ok rs ∧
      rs.map (fun r => r.usn) = ["s1", "s3"] ∧ rs.length = 2 := by
  refine ⟨by decide, ?_⟩
  obtain ⟨rs, h1, h2, h3⟩ := predict_batch_resolved_order svcNoModels db1
    MLOutcome.ok ["s1", "s2", "s3"] (by decide) (by decide)
  refine ⟨rs, h1, ?_, ?_⟩
  · rw [h2]
    rfl
  · rw [h3]
    decide

/-! ## C10: batch output shape and error entries -/

/-- C10: `batch_predict` returns exactly one entry per input student, in
input order; an item on which `predict_single` raises is replaced in
place by an error entry carrying `model_used = "error"`, confidence 0,
predicted_grade 0, the message string, and the student's ids. -/
theorem batch_predict_per_item (svc : Service) (students : List StudentData) :
    (batch_predict svc students).length = students.length ∧
    (∀ (i : ℕ) (sd : StudentData), students[i]? = some sd →
      ((∀ r, predict_single svc sd = Except.ok r →
        (batch_predict svc students)[i]? = some (BatchItem.success r)) ∧
       (∀ e, predict_single svc sd = Except.error e →
        (batch_predict svc students)[i]? =
          some (BatchItem.failure (errorEntry sd e))))) ∧
    (∀ sd e, (errorEntry sd e).model_used = "error" ∧
      (errorEntry sd e).confidence = 0 ∧ (errorEntry sd e).predicted_grade = 0 ∧
      (errorEntry sd e).error = e ∧ (errorEntry sd e).usn = sd.usn ∧
      (errorEntry sd e).name = sd.name) := by
  refine ⟨by simp [batch_predict], ?_,
    fun sd e => ⟨rfl, rfl, rfl, rfl, rfl, rfl⟩⟩
  intro i sd hsd
  constructor
  · intro r hr
    unfold batch_predict
    rw [List.getElem?_map, hsd]
    simp [batchItemOf, hr]
  · intro e he
    unfold batch_predict
    rw [List.getElem?_map, hsd]
    simp [batchItemOf, he]

/-- Witness for C10: a batch of one student against the raising-scaler
service yields one in-place error entry. -/
theorem batch_predict_per_item_witness :
    ([sd0] : List StudentData)[0]? = some sd0 ∧
    predict_single svcScalerFail sd0 = Except.error "scaler failure" ∧
    (batch_predict svcScalerFail [sd0])[0]? =
      some (BatchItem.failure (errorEntry sd0 "scaler failure")) :=
  ⟨rfl, rfl,
    ((batch_predict_per_item svcScalerFail [sd0]).2.1 0 sd0 rfl).2
      "scaler failure" rfl⟩

end ImprovIt
